import Mathlib

/-!
Shallow embedding of `altair_parser/jsonschema.py` (class `JSONSchema`):
schema-node wrapping, `$ref` resolution with its process-wide cache,
trait-code generation (`trait_code`), import computation and module
assembly (`module_spec`).

Modelling conventions:
* Schema documents are JSON values (`JSON`).  Schema subtrees handled by the
  source are Python dicts; key lookup on a non-mapping value yields no keys
  here (CPython would raise `AttributeError` on attribute access instead —
  no statement below exercises a non-mapping subtree).
* Python exceptions become the `Err` sum.  The five conditions of the spec's
  error taxonomy are modelled by dedicated constructors carrying the payload
  that the source's exception message carries; raw `KeyError` / `TypeError` /
  `AttributeError` escapes keep their own constructors.
* The mutable class-level `_cached_references` dict is threaded explicitly as
  a `Cache` value through every operation that can touch it.
* `parent` is assigned but never read anywhere in the source, so the node
  structure omits it.
* Recursion in `trait_code` can diverge on self-referential non-object refs
  (acknowledged by the spec); a fuel parameter makes the embedding total,
  with a dedicated `fuelExhausted` outcome.
-/

namespace Schemapi

/-- JSON values: the in-memory schema documents the source operates on. -/
inductive JSON where
  | null
  | bool (b : Bool)
  | num (n : Int)
  | str (s : String)
  | arr (elems : List JSON)
  | obj (fields : List (String × JSON))
deriving Repr

/-- First-match key lookup in an object's field list (Python dict keys are
unique, so first-match agrees with dict lookup). -/
def lookupField : List (String × JSON) → String → Option JSON
  | [], _ => none
  | (k, v) :: rest, key => if k = key then some v else lookupField rest key

/-- `d.get(key)` on a mapping; `none` on any non-mapping. -/
def JSON.lookup : JSON → String → Option JSON
  | .obj fields, key => lookupField fields key
  | _, _ => none

/-- `key in d` for a mapping. -/
def JSON.hasKey (j : JSON) (key : String) : Bool :=
  (j.lookup key).isSome

/-- Structural equality of JSON values (used to model `context is schema`;
identity implies structural equality, and no construction in the source
builds two distinct-but-equal context documents for one node). -/
def JSON.beq : JSON → JSON → Bool
  | .null, .null => true
  | .bool a, .bool b => a = b
  | .num a, .num b => a = b
  | .str a, .str b => a = b
  | .arr xs, .arr ys => beqList xs ys
  | .obj xs, .obj ys => beqFields xs ys
  | _, _ => false
where
  beqList : List JSON → List JSON → Bool
    | [], [] => true
    | x :: xs, y :: ys => JSON.beq x y && beqList xs ys
    | _, _ => false
  beqFields : List (String × JSON) → List (String × JSON) → Bool
    | [], [] => true
    | (k1, v1) :: xs, (k2, v2) :: ys => k1 = k2 && JSON.beq v1 v2 && beqFields xs ys
    | _, _ => false

/-- Python `s.split('/')`, accumulator form over the character list. -/
def splitSlashAux : List Char → List Char → List String
  | [], acc => [String.mk acc.reverse]
  | c :: rest, acc =>
    if c = '/' then String.mk acc.reverse :: splitSlashAux rest []
    else splitSlashAux rest (c :: acc)

/-- Python `s.split('/')`.  Always returns a nonempty list, matching
`str.split`, so `path[-1]` and `path[0]` are total below. -/
def splitSlash (s : String) : List String :=
  splitSlashAux s.data []

/-- ASCII lowercase of one character (`str.lower` on the identifier-like
names the source lowercases). -/
def lowerChar (c : Char) : Char :=
  if 'A' ≤ c && c ≤ 'Z' then Char.ofNat (c.toNat + 32) else c

/-- Python `s.lower()` restricted to ASCII, which is all the source applies
it to (definition names / classnames). -/
def strLower (s : String) : String :=
  String.mk (s.data.map lowerChar)

/-- Errors: the spec's taxonomy conditions plus the raw Python exceptions the
source can let escape, plus fuel exhaustion of the embedding. -/
inductive Err where
  /-- `NotImplementedError` naming an unsupported keyword. -/
  | notSupported (keyword : String)
  /-- `ValueError("Unrecognized $ref format: ...")`. -/
  | invalidReference (ref : String)
  /-- `ValueError("$ref=... not present in the schema")`. -/
  | unresolvedReference (ref : String)
  /-- `NotImplementedError("Anonymous class name")`. -/
  | undefinedClassname
  /-- `ValueError("unrecognized type identifier: ...")`. -/
  | unrecognizedType (value : JSON)
  /-- Raw `KeyError` (e.g. `self.schema['items']` on a node without items). -/
  | keyError (key : String)
  /-- Raw `TypeError` (string-indexing a non-dict during ref walking). -/
  | typeErr
  /-- Raw `AttributeError` (e.g. `.split` on a non-string `$ref` value). -/
  | attrError (meth : String)
  /-- Failed `assert` (`module_spec` on a non-root node). -/
  | assertionFailed
  /-- Embedding-only: recursion fuel ran out. -/
  | fuelExhausted
deriving Repr

/-- Modelled from the spec: the type-representation tree (spec section 3).
The source assembles these values with `construct_function_call` and
`Variable` from `altair_parser/utils.py`, a module absent from the sources;
the spec fixes the shape as primitive call, enumeration call, array call,
union call, or object-reference call.  The two object-reference spellings of
the source (`T.Instance(name)` for resolved refs, `jst.JSONInstance(name)`
for inline object types) are kept distinct. -/
inductive TraitCode where
  /-- `construct_function_call('jst.JSONBoolean')` and the other primitives. -/
  | primitive (cls : String)
  /-- `construct_function_call('jst.JSONEnum', values)`. -/
  | enum (values : JSON)
  /-- `construct_function_call('jst.JSONArray', Variable(itemtype))`. -/
  | arrayOf (item : TraitCode)
  /-- `construct_function_call('jst.JSONUnion', Variable("[...]"))`. -/
  | unionOf (members : List TraitCode)
  /-- `'T.Instance({classname})'` for a `$ref` to an object definition. -/
  | instanceRef (classname : String)
  /-- `construct_function_call('jst.JSONInstance', classname)`. -/
  | jsonInstance (classname : String)
deriving Repr

/-- A wrapped schema node: `JSONSchema.__init__`.  `parent` is omitted (it is
written but never read in the source). -/
structure SchemaNode where
  schema : JSON
  context : JSON
  name : Option String
deriving Repr

/-- The class-level `_cached_references` dict, threaded explicitly. -/
def Cache := List (String × SchemaNode)

/-- Cache lookup (`ref in self._cached_references` / indexing). -/
def lookupCache : Cache → String → Option SchemaNode
  | [], _ => none
  | (k, v) :: rest, key => if k = key then some v else lookupCache rest key

/-- Root construction: `JSONSchema(schema)` with `context=None`, so the
context is the schema itself. -/
def mkRoot (schema : JSON) : SchemaNode :=
  ⟨schema, schema, none⟩

/-- `make_child`: share the context, set the (optional) name. -/
def SchemaNode.make_child (self : SchemaNode) (schema : JSON) (name : Option String) : SchemaNode :=
  ⟨schema, self.context, name⟩

/-- `self.type` through `__getattr__`: `schema.get('type', 'object')`. -/
def SchemaNode.type (self : SchemaNode) : JSON :=
  (self.schema.lookup "type").getD (.str "object")

/-- `self.properties` through `__getattr__`: `schema.get('properties', {})`. -/
def SchemaNode.properties (self : SchemaNode) : JSON :=
  (self.schema.lookup "properties").getD (.obj [])

/-- `self.definitions` through `__getattr__`: `schema.get('definitions', {})`. -/
def SchemaNode.definitions (self : SchemaNode) : JSON :=
  (self.schema.lookup "definitions").getD (.obj [])

/-- `is_root`: `self.context is self.schema`. -/
def SchemaNode.is_root (self : SchemaNode) : Bool :=
  JSON.beq self.context self.schema

/-- `is_reference`: `'$ref' in self.schema`. -/
def SchemaNode.is_reference (self : SchemaNode) : Bool :=
  self.schema.hasKey "$ref"

/-- `is_trait`: `self.type != 'object' and not self.is_reference`. -/
def SchemaNode.is_trait (self : SchemaNode) : Bool :=
  !(JSON.beq self.type (.str "object")) && !self.is_reference

/-- `is_object`: `self.type == 'object' and not self.is_reference`. -/
def SchemaNode.is_object (self : SchemaNode) : Bool :=
  JSON.beq self.type (.str "object") && !self.is_reference

/-- Python truthiness of the `name` attribute (`if self.name:`). -/
def nameTruthy : Option String → Bool
  | some n => n ≠ ""
  | none => false

/-- `classname`: explicit truthy name, else `"RootInstance"` for the root,
else the final `/`-segment of `$ref`, else `NotImplementedError`. -/
def SchemaNode.classname (self : SchemaNode) : Except Err String :=
  if nameTruthy self.name then .ok (self.name.getD "")
  else if self.is_root then .ok "RootInstance"
  else
    match self.schema.lookup "$ref" with
    | some (.str r) => .ok ((splitSlash r).getLast?.getD "")
    | some _ => .error (.attrError "split")
    | none => .error .undefinedClassname

/-- `modulename = classname.lower()`. -/
def SchemaNode.modulename (self : SchemaNode) : Except Err String :=
  (self.classname).map strLower

/-- `filename = modulename + '.py'`. -/
def SchemaNode.filename (self : SchemaNode) : Except Err String :=
  (self.modulename).map (· ++ ".py")

/-- `import_statement = f"from .{modulename} import {classname}"`. -/
def SchemaNode.import_statement (self : SchemaNode) : Except Err String :=
  match self.modulename, self.classname with
  | .ok m, .ok c => .ok ("from ." ++ m ++ " import " ++ c)
  | .error e, _ => .error e
  | _, .error e => .error e

/-- Outcome of the `try` block of `get_reference`: walk the context by
indexing with each path segment in turn.  A missing key in a mapping is the
caught `KeyError`; string-indexing a non-mapping is the uncaught
`TypeError`. -/
inductive WalkOutcome where
  | ok (value : JSON)
  | missingKey
  | notAMapping
deriving Repr

/-- The successive-indexing loop `for key in path[1:]: schema = schema[key]`. -/
def refWalk : JSON → List String → WalkOutcome
  | s, [] => .ok s
  | .obj fields, key :: rest =>
    match lookupField fields key with
    | some v => refWalk v rest
    | none => .missingKey
  | _, _ :: _ => .notAMapping

/-- `get_reference(ref, cache=...)`: cache hit returns the stored node
untouched; otherwise split on `/`, demand a leading `#`, walk the context,
wrap the result with `name = path[-1]`, and store it when caching. -/
def SchemaNode.get_reference (self : SchemaNode) (ref : String) (cache : Bool)
    (store : Cache) : Except Err (SchemaNode × Cache) :=
  match cache, lookupCache store ref with
  | true, some node => .ok (node, store)
  | _, _ =>
    let path := splitSlash ref
    let name := path.getLast?.getD ""
    if path.head? ≠ some "#" then
      .error (.invalidReference ref)
    else
      match refWalk self.context path.tail with
      | .missingKey => .error (.unresolvedReference ref)
      | .notAMapping => .error .typeErr
      | .ok schema =>
        let wrapped := self.make_child schema (some name)
        if cache then .ok (wrapped, (ref, wrapped) :: store)
        else .ok (wrapped, store)

/-- `wrapped_properties()`: one nameless child per `properties` entry, in
declaration order (`.items()` on a non-mapping raises). -/
def SchemaNode.wrapped_properties (self : SchemaNode) :
    Except Err (List (String × SchemaNode)) :=
  match self.properties with
  | .obj fields => .ok (fields.map fun p => (p.1, self.make_child p.2 none))
  | _ => .error (.attrError "items")

/-- `wrapped_definitions()`: lowercased key, child named by the original
key, in declaration order. -/
def SchemaNode.wrapped_definitions (self : SchemaNode) :
    Except Err (List (String × SchemaNode)) :=
  match self.definitions with
  | .obj fields => .ok (fields.map fun p => (strLower p.1, self.make_child p.2 (some p.1)))
  | _ => .error (.attrError "items")

/-- The fixed prelude of every object artifact's import list
(`JSONSchema.basic_imports`, three entries). -/
def basic_imports : List String :=
  ["import traitlets as T",
   "from . import jstraitlets as jst",
   "from .baseobject import BaseObject"]

/-- The loop body of the `imports` property: for each reference-classified
property, resolve its `$ref` (with caching) and append the target's import
statement when the target is an object. -/
def importsLoop (self : SchemaNode) : List (String × SchemaNode) → Cache →
    Except Err (List String × Cache)
  | [], store => .ok ([], store)
  | (_, obj) :: rest, store =>
    if obj.is_reference then
      match obj.schema.lookup "$ref" with
      | some (.str r) =>
        (match self.get_reference r true store with
         | .error e => .error e
         | .ok (ref, store1) =>
           if ref.is_object then
             match ref.import_statement with
             | .error e => .error e
             | .ok stmt =>
               match importsLoop self rest store1 with
               | .error e => .error e
               | .ok (tail, store2) => .ok (stmt :: tail, store2)
           else importsLoop self rest store1)
      | some _ => .error (.attrError "split")
      | none => .error (.keyError "$ref")
    else importsLoop self rest store

/-- The `imports` property: `basic_imports` followed by one import per
reference-classified property whose resolved target is an object. -/
def SchemaNode.imports (self : SchemaNode) (store : Cache) :
    Except Err (List String × Cache) :=
  match self.wrapped_properties with
  | .error e => .error e
  | .ok props =>
    match importsLoop self props store with
    | .error e => .error e
    | .ok (lst, store1) => .ok (basic_imports ++ lst, store1)

/-- The `module_imports` property: one import statement per object-classified
wrapped definition. -/
def moduleImportsLoop : List (String × SchemaNode) → Except Err (List String)
  | [] => .ok []
  | (_, obj) :: rest =>
    if obj.is_object then
      match obj.import_statement with
      | .error e => .error e
      | .ok stmt =>
        match moduleImportsLoop rest with
        | .error e => .error e
        | .ok tail => .ok (stmt :: tail)
    else moduleImportsLoop rest

/-- `module_imports`. -/
def SchemaNode.module_imports (self : SchemaNode) : Except Err (List String) :=
  match self.wrapped_definitions with
  | .error e => .error e
  | .ok defs => moduleImportsLoop defs

/-- `simple_types`. -/
def simple_types : List String :=
  ["boolean", "null", "number", "integer", "string"]

/-- `traitlet_map[t]['cls']` for the simple types (the map has no other
entries reachable from the simple-type branch). -/
def traitletCls : String → String
  | "boolean" => "jst.JSONBoolean"
  | "null" => "jst.JSONNull"
  | "number" => "jst.JSONNumber"
  | "integer" => "jst.JSONInteger"
  | "string" => "jst.JSONString"
  | _ => ""

/-- The generator of the list-of-types branch of `trait_code`: each member is
dispatched as a fresh single-type child `{'type': typ}`, left to right; the
recursive dispatch itself is passed in as `f` (the fueled `trait_code` one
level down), keeping the main definition structurally recursive on fuel. -/
def traitCodeListWith (f : SchemaNode → Cache → Except Err (TraitCode × Cache))
    (self : SchemaNode) : List JSON → Cache → Except Err (List TraitCode × Cache)
  | [], store => .ok ([], store)
  | typ :: rest, store =>
    match f (self.make_child (.obj [("type", typ)]) none) store with
    | .error e => .error e
    | .ok (tc, store1) =>
      match traitCodeListWith f self rest store1 with
      | .error e => .error e
      | .ok (tcs, store2) => .ok (tc :: tcs, store2)

/-- The `trait_code` property, fueled.  Dispatch order is the source's:
`not`, `$ref`, `anyOf`, `allOf`, `oneOf`, `enum`, simple type, `array`,
`object`, list of types, else `ValueError`. -/
def SchemaNode.trait_code : Nat → SchemaNode → Cache → Except Err (TraitCode × Cache)
  | 0, _, _ => .error .fuelExhausted
  | Nat.succ fuel, self, store =>
    if self.schema.hasKey "not" then .error (.notSupported "not")
    else if self.schema.hasKey "$ref" then
      match self.schema.lookup "$ref" with
      | some (.str r) =>
        (match self.get_reference r true store with
         | .error e => .error e
         | .ok (ref, store1) =>
           if ref.is_object then
             match ref.classname with
             | .ok cn => .ok (.instanceRef cn, store1)
             | .error e => .error e
           else SchemaNode.trait_code fuel ref store1)
      | _ => .error (.attrError "split")
    else if self.schema.hasKey "anyOf" then .error (.notSupported "anyOf")
    else if self.schema.hasKey "allOf" then .error (.notSupported "allOf")
    else if self.schema.hasKey "oneOf" then .error (.notSupported "oneOf")
    else if self.schema.hasKey "enum" then
      .ok (.enum ((self.schema.lookup "enum").getD .null), store)
    else
      match self.type with
      | .str t =>
        if simple_types.contains t then .ok (.primitive (traitletCls t), store)
        else if t = "array" then
          match self.schema.lookup "items" with
          | none => .error (.keyError "items")
          | some (.arr _) => .error (.notSupported "'items' keyword as list")
          | some items =>
            match SchemaNode.trait_code fuel (self.make_child items none) store with
            | .error e => .error e
            | .ok (itemtype, store1) => .ok (.arrayOf itemtype, store1)
        else if t = "object" then
          match self.classname with
          | .ok cn => .ok (.jsonInstance cn, store)
          | .error e => .error e
        else .error (.unrecognizedType (.str t))
      | .arr typs =>
        (match traitCodeListWith (SchemaNode.trait_code fuel) self typs store with
         | .error e => .error e
         | .ok (members, store1) => .ok (.unionOf members, store1))
      | other => .error (.unrecognizedType other)

/-- Modelled from the spec: generated artifacts.  The templating collaborator
(jinja2's rendering of `OBJECT_TEMPLATE`) and the two verbatim support files
(`jstraitlets.py`, `baseobject.py`, read from disk) live outside the sources;
per spec sections 4.4 and 6 an object artifact is determined by the record
description handed to the collaborator — classname, base class, import list,
ordered field/type-representation pairs — and support artifacts are opaque
fixed content. -/
inductive Artifact where
  /-- One of the two verbatim support files, identified by its filename. -/
  | support (filename : String)
  /-- A rendered object record (`object_code`): exactly the data the template
  reads from the node. -/
  | objectArtifact (classname : String) (baseclass : String)
      (importList : List String) (fields : List (String × TraitCode))
  /-- The `__init__.py` manifest: its list of import lines. -/
  | manifest (lines : List String)
deriving Repr

/-- The template's field loop: each property's name with its trait code, in
declaration order. -/
def fieldsLoop (fuel : Nat) : List (String × SchemaNode) → Cache →
    Except Err (List (String × TraitCode) × Cache)
  | [], store => .ok ([], store)
  | (name, prop) :: rest, store =>
    match SchemaNode.trait_code fuel prop store with
    | .error e => .error e
    | .ok (tc, store1) =>
      match fieldsLoop fuel rest store1 with
      | .error e => .error e
      | .ok (tail, store2) => .ok ((name, tc) :: tail, store2)

/-- `object_code()`: render the node — its imports, classname, baseclass and
per-property trait codes — as one artifact. -/
def SchemaNode.object_code (fuel : Nat) (self : SchemaNode) (store : Cache) :
    Except Err (Artifact × Cache) :=
  match self.imports store with
  | .error e => .error e
  | .ok (imps, store1) =>
    match self.classname with
    | .error e => .error e
    | .ok cn =>
      match self.wrapped_properties with
      | .error e => .error e
      | .ok props =>
        match fieldsLoop fuel props store1 with
        | .error e => .error e
        | .ok (fields, store2) =>
          .ok (.objectArtifact cn "BaseObject" imps fields, store2)

/-- The dict-comprehension at the end of `module_spec`: one artifact per
object-classified wrapped definition, keyed by its filename. -/
def defsLoop (fuel : Nat) : List (String × SchemaNode) → Cache →
    Except Err (List (String × Artifact) × Cache)
  | [], store => .ok ([], store)
  | (_, schema) :: rest, store =>
    if schema.is_object then
      match schema.filename with
      | .error e => .error e
      | .ok fn =>
        match SchemaNode.object_code fuel schema store with
        | .error e => .error e
        | .ok (art, store1) =>
          match defsLoop fuel rest store1 with
          | .error e => .error e
          | .ok (tail, store2) => .ok ((fn, art) :: tail, store2)
    else defsLoop fuel rest store

/-- `module_spec()`: requires a root node; emits the two support files, the
root artifact, the `__init__.py` manifest (root import plus
`module_imports`), then one artifact per object-typed definition, as an
insertion-ordered association list (the source's dict; no filename collides
for any document with distinct definition names none equal to the root's). -/
def SchemaNode.module_spec (fuel : Nat) (self : SchemaNode) (store : Cache) :
    Except Err (List (String × Artifact) × Cache) :=
  if !self.is_root then .error .assertionFailed
  else
    match self.filename with
    | .error e => .error e
    | .ok fn =>
      match SchemaNode.object_code fuel self store with
      | .error e => .error e
      | .ok (rootArt, store1) =>
        match self.import_statement with
        | .error e => .error e
        | .ok rootImp =>
          match self.wrapped_definitions with
          | .error e => .error e
          | .ok defs =>
            match moduleImportsLoop defs with
            | .error e => .error e
            | .ok modImps =>
              match defsLoop fuel defs store1 with
              | .error e => .error e
              | .ok (defArts, store2) =>
                .ok ([("jstraitlets.py", .support "jstraitlets.py"),
                      ("baseobject.py", .support "baseobject.py"),
                      (fn, rootArt),
                      ("__init__.py", .manifest (rootImp :: modImps))]
                     ++ defArts, store2)

/-! ### Auxiliary predicates and spec-side definitions -/

/-- Membership in the spec's five-condition error taxonomy (section 7):
`NotSupported`, `InvalidReference`, `UnresolvedReference`,
`UndefinedClassname`, `UnrecognizedType`.  Raw Python exceptions
(`KeyError`, `TypeError`, `AttributeError`, failed asserts) are outside it. -/
def inSpecTaxonomy : Err → Bool
  | .notSupported _ => true
  | .invalidReference _ => true
  | .unresolvedReference _ => true
  | .undefinedClassname => true
  | .unrecognizedType _ => true
  | _ => false

/-- A `type` value that the final `else` branch of `trait_code` rejects:
neither a primitive name, nor `"array"`, nor `"object"`, nor a list. -/
def isScalarUnrecognized : JSON → Bool
  | .str t => !(simple_types.contains t) && !(t = "array") && !(t = "object")
  | .arr _ => false
  | _ => true

/-- Modelled from the spec (section 4.4, import list): the contribution of one
property to an object's import list, read off the property's own
`$ref`/object classification with the reference resolved directly against
the document (no cache): one import statement when the property is a
reference to an object-classified target, nothing otherwise. -/
def importOfProp (self : SchemaNode) (obj : SchemaNode) : Except Err (List String) :=
  if obj.is_reference then
    match obj.schema.lookup "$ref" with
    | some (.str r) =>
      (match self.get_reference r false [] with
       | .error e => .error e
       | .ok (ref, _) =>
         if ref.is_object then
           match ref.import_statement with
           | .error e => .error e
           | .ok stmt => .ok [stmt]
         else .ok [])
    | some _ => .error (.attrError "split")
    | none => .error (.keyError "$ref")
  else .ok []

/-- Modelled from the spec: concatenation of the per-property import
contributions, in property order. -/
def importsFromClassification (self : SchemaNode) :
    List (String × SchemaNode) → Except Err (List String)
  | [] => .ok []
  | (_, obj) :: rest =>
    match importOfProp self obj with
    | .error e => .error e
    | .ok here =>
      match importsFromClassification self rest with
      | .error e => .error e
      | .ok tail => .ok (here ++ tail)

/-- Modelled from the spec: the import list of an object's artifact as the
spec words it — the fixed prelude followed by the per-property
contributions computed from each property's own classification. -/
def importsOracle (self : SchemaNode) : Except Err (List String) :=
  match self.wrapped_properties with
  | .error e => .error e
  | .ok props =>
    match importsFromClassification self props with
    | .error e => .error e
    | .ok per => .ok (basic_imports ++ per)

/-- A cache state is coherent for a node when every stored entry is exactly
what an uncached resolution against that node's context produces.  Every
cache reachable through the source's own API from an empty cache and a fixed
document is coherent. -/
def cacheCoherent (self : SchemaNode) (store : Cache) : Prop :=
  ∀ r node, lookupCache store r = some node →
    self.get_reference r false [] = .ok (node, [])

/-! ### Concrete documents for witnesses and counterexamples -/

/-- A document whose only definition `Bar` is integer-typed. -/
def barDoc : JSON :=
  .obj [("definitions", .obj [("Bar", .obj [("type", .str "integer")])])]

/-- The node that resolving `#/definitions/Bar` against `barDoc` produces. -/
def barNode : SchemaNode :=
  ⟨.obj [("type", .str "integer")], barDoc, some "Bar"⟩

/-- A node carrying both `$ref` and `anyOf`. -/
def anyOfRefNode : SchemaNode :=
  (mkRoot barDoc).make_child
    (.obj [("$ref", .str "#/definitions/Bar"), ("anyOf", .arr [])]) none

/-- A node carrying only a `$ref` to the integer-typed `Bar`. -/
def refBarNode : SchemaNode :=
  (mkRoot barDoc).make_child (.obj [("$ref", .str "#/definitions/Bar")]) none

/-- A node whose `type` is the list `["array"]`. -/
def listArrayNode : SchemaNode :=
  mkRoot (.obj [("type", .arr [.str "array"])])

/-- A node whose `type` is the number `3`. -/
def numTypeNode : SchemaNode :=
  mkRoot (.obj [("type", .num 3)])

/-- An array-typed node without an `items` key. -/
def arrayNoItemsNode : SchemaNode :=
  mkRoot (.obj [("type", .str "array")])

/-- An anonymous non-root non-reference child node. -/
def anonChildNode : SchemaNode :=
  (mkRoot barDoc).make_child (.obj [("type", .str "object")]) none

/-- The two-definition document of spec section 8: object-typed `A`,
string-typed `B`. -/
def twoDefsDoc : JSON :=
  .obj [("definitions", .obj
    [("A", .obj [("type", .str "object"), ("properties", .obj [])]),
     ("B", .obj [("type", .str "string")])])]

/-- A document whose root has one property referencing the object-typed
definition `A`. -/
def refPropDoc : JSON :=
  .obj [("properties", .obj [("p", .obj [("$ref", .str "#/definitions/A")])]),
        ("definitions", .obj [("A", .obj [("type", .str "object")])])]

/-! ### Claims -/

/-- C9: for every schema node, exactly one of the three classification
predicates `is_trait`, `is_object`, `is_reference` holds — they are mutually
exclusive and jointly exhaustive, because `is_reference` holds iff `$ref` is
present and otherwise the defaulted `type` splits the remaining cases
between `is_object` and `is_trait`. -/
theorem C9_classification_partition (node : SchemaNode) :
    (node.is_trait = true ∧ node.is_object = false ∧ node.is_reference = false) ∨
    (node.is_trait = false ∧ node.is_object = true ∧ node.is_reference = false) ∨
    (node.is_trait = false ∧ node.is_object = false ∧ node.is_reference = true) := by
  unfold SchemaNode.is_trait SchemaNode.is_object SchemaNode.is_reference
  cases hr : node.schema.hasKey "$ref" <;>
    cases ht : JSON.beq node.type (.str "object") <;>
      simp [SchemaNode.is_reference, hr, ht]

/-- C7: `classname` returns the explicit `name` when one is set (a nonempty
string, per Python truthiness); otherwise `"RootInstance"` when the node is
root; otherwise the final `/`-separated segment of the `$ref` value when the
node is a reference; otherwise it fails with the undefined-classname
condition — in particular, on a node built via `make_child` with no explicit
name, not root and without `$ref`. -/
theorem C7_classname_resolution (node : SchemaNode) :
    (∀ n, node.name = some n → n ≠ "" → node.classname = .ok n) ∧
    (nameTruthy node.name = false → node.is_root = true →
        node.classname = .ok "RootInstance") ∧
    (∀ r, nameTruthy node.name = false → node.is_root = false →
        node.schema.lookup "$ref" = some (.str r) →
        node.classname = .ok ((splitSlash r).getLast?.getD "")) ∧
    (∀ (parent : SchemaNode) (s : JSON), node = parent.make_child s none → node.is_root = false →
        node.is_reference = false → node.classname = .error .undefinedClassname) := by
  refine ⟨?_, ?_, ?_, ?_⟩
  · intro n hn hne
    unfold SchemaNode.classname
    simp [hn, nameTruthy, hne]
  · intro hname hroot
    unfold SchemaNode.classname
    simp [hname, hroot]
  · intro r hname hroot href
    unfold SchemaNode.classname
    simp [hname, hroot, href]
  · intro parent s hmk hroot href
    have hname : node.name = none := by rw [hmk]; rfl
    have hlk : node.schema.lookup "$ref" = none := by
      have := href
      unfold SchemaNode.is_reference JSON.hasKey at this
      cases h : node.schema.lookup "$ref" with
      | none => rfl
      | some v => rw [h] at this; simp at this
    unfold SchemaNode.classname
    simp [hname, nameTruthy, hroot, hlk]

/-- C7 witness: each branch of the classname contract exercised at a concrete
node; in particular the anonymous `make_child` child of the `barDoc` root
fails with the undefined-classname condition. -/
theorem C7_classname_resolution_witness :
    barNode.classname = .ok "Bar" ∧
    (mkRoot barDoc).classname = .ok "RootInstance" ∧
    refBarNode.classname = .ok "Bar" ∧
    anonChildNode.classname = .error .undefinedClassname :=
  ⟨(C7_classname_resolution barNode).1 "Bar" rfl (by decide),
   (C7_classname_resolution (mkRoot barDoc)).2.1 rfl rfl,
   (C7_classname_resolution refBarNode).2.2.1 "#/definitions/Bar" rfl rfl rfl,
   (C7_classname_resolution anonChildNode).2.2.2 (mkRoot barDoc)
     (.obj [("type", .str "object")]) rfl rfl rfl⟩

/-- C10: for a node with none of the earlier-dispatched keys and
`type == "array"`, `trait_code` reads `items` unconditionally: without an
`items` key it fails with a raw `KeyError`, which is none of the five error
conditions of the spec's taxonomy. -/
theorem C10_array_without_items (node : SchemaNode) (fuel : Nat) (store : Cache)
    (hnot : node.schema.hasKey "not" = false)
    (href : node.schema.hasKey "$ref" = false)
    (hany : node.schema.hasKey "anyOf" = false)
    (hall : node.schema.hasKey "allOf" = false)
    (hone : node.schema.hasKey "oneOf" = false)
    (henum : node.schema.hasKey "enum" = false)
    (ht : node.type = .str "array")
    (hitems : node.schema.lookup "items" = none) :
    SchemaNode.trait_code (fuel + 1) node store = .error (.keyError "items") ∧
    inSpecTaxonomy (.keyError "items") = false := by
  constructor
  · unfold SchemaNode.trait_code
    simp [hnot, href, hany, hall, hone, henum, ht, hitems, simple_types]
  · rfl

/-- C10 witness: the concrete array-typed node without `items`. -/
theorem C10_array_without_items_witness :
    SchemaNode.trait_code 1 arrayNoItemsNode [] = .error (.keyError "items") ∧
    inSpecTaxonomy (.keyError "items") = false :=
  C10_array_without_items arrayNoItemsNode 0 [] rfl rfl rfl rfl rfl rfl rfl rfl

/-- C8: for the root document with definitions `A` (object-typed) and `B`
(string-typed), assembly produces exactly five artifacts — the two fixed
support artifacts, the root artifact, the manifest importing the root
artifact and re-exporting `A` (the only object-typed definition, in
`wrapped_definitions()` order), and one artifact for `A`; none for `B`. -/
theorem C8_five_artifacts :
    SchemaNode.module_spec 5 (mkRoot twoDefsDoc) [] =
      .ok ([("jstraitlets.py", .support "jstraitlets.py"),
            ("baseobject.py", .support "baseobject.py"),
            ("rootinstance.py", .objectArtifact "RootInstance" "BaseObject" basic_imports []),
            ("__init__.py", .manifest
              ["from .rootinstance import RootInstance", "from .a import A"]),
            ("a.py", .objectArtifact "A" "BaseObject" basic_imports [])], []) := rfl

/-- C6: for a node whose raw schema contains `$ref` and not `not`, the type
representation is an object-reference (`T.Instance`) naming the resolved
target's classname when the target is object-classified, and otherwise
equals the target node's own type representation — the reference inlines the
referenced non-object type rather than wrapping it. -/
theorem C6_ref_inlines_nonobject (node : SchemaNode) (fuel : Nat) (store : Cache)
    (r : String) (target : SchemaNode) (store1 : Cache)
    (hnot : node.schema.hasKey "not" = false)
    (href : node.schema.lookup "$ref" = some (.str r))
    (hres : node.get_reference r true store = .ok (target, store1)) :
    (∀ cn, target.is_object = true → target.classname = .ok cn →
        SchemaNode.trait_code (fuel + 1) node store = .ok (.instanceRef cn, store1)) ∧
    (target.is_object = false →
        SchemaNode.trait_code (fuel + 1) node store =
          SchemaNode.trait_code fuel target store1) := by
  have hkey : node.schema.hasKey "$ref" = true := by
    unfold JSON.hasKey; rw [href]; rfl
  constructor
  · intro cn hobj hcn
    unfold SchemaNode.trait_code
    simp [hnot, hkey, href, hres, hobj, hcn]
  · intro hobj
    conv_lhs => unfold SchemaNode.trait_code
    simp [hnot, hkey, href, hres, hobj]

/-- C6 witness: resolving `#/definitions/Bar` (integer-typed) gives the
integer primitive directly — the representation of `{"type": "integer"}` —
not a wrapper around it. -/
theorem C6_ref_inlines_nonobject_witness :
    SchemaNode.trait_code 5 refBarNode [] =
      .ok (.primitive "jst.JSONInteger", [("#/definitions/Bar", barNode)]) := by
  have h := (C6_ref_inlines_nonobject refBarNode 4 [] "#/definitions/Bar" barNode
    [("#/definitions/Bar", barNode)] rfl rfl rfl).2 rfl
  exact h.trans rfl

/-- C1 counterexample: `anyOfRefNode` carries `"anyOf"` together with a valid
`"$ref"`, yet its type representation is computed successfully (the `$ref`
branch dispatches first), contradicting the claim that any node carrying
`"anyOf"` fails with the not-supported condition regardless of other keys —
in particular when the node additionally carries `"$ref"`. -/
theorem C1_counterexample :
    anyOfRefNode.schema.hasKey "anyOf" = true ∧
    SchemaNode.trait_code 5 anyOfRefNode [] =
      .ok (.primitive "jst.JSONInteger", [("#/definitions/Bar", barNode)]) :=
  ⟨rfl, rfl⟩

/-- C1 amended: a node carrying `"not"` always fails with NotSupported("not");
a node carrying `"anyOf"` / `"allOf"` / `"oneOf"` fails with NotSupported
naming the first such keyword in dispatch order provided no
earlier-dispatched key (`"not"`, `"$ref"`, and the earlier of the three) is
present — a node also carrying `"$ref"` is handled by the reference branch
instead and need not fail. -/
theorem C1_composite_keywords_fail (node : SchemaNode) (fuel : Nat) (store : Cache) :
    (node.schema.hasKey "not" = true →
        SchemaNode.trait_code (fuel + 1) node store = .error (.notSupported "not")) ∧
    (node.schema.hasKey "not" = false → node.schema.hasKey "$ref" = false →
        node.schema.hasKey "anyOf" = true →
        SchemaNode.trait_code (fuel + 1) node store = .error (.notSupported "anyOf")) ∧
    (node.schema.hasKey "not" = false → node.schema.hasKey "$ref" = false →
        node.schema.hasKey "anyOf" = false → node.schema.hasKey "allOf" = true →
        SchemaNode.trait_code (fuel + 1) node store = .error (.notSupported "allOf")) ∧
    (node.schema.hasKey "not" = false → node.schema.hasKey "$ref" = false →
        node.schema.hasKey "anyOf" = false → node.schema.hasKey "allOf" = false →
        node.schema.hasKey "oneOf" = true →
        SchemaNode.trait_code (fuel + 1) node store = .error (.notSupported "oneOf")) := by
  refine ⟨?_, ?_, ?_, ?_⟩
  · intro h1
    unfold SchemaNode.trait_code
    simp [h1]
  · intro h1 h2 h3
    unfold SchemaNode.trait_code
    simp [h1, h2, h3]
  · intro h1 h2 h3 h4
    unfold SchemaNode.trait_code
    simp [h1, h2, h3, h4]
  · intro h1 h2 h3 h4 h5
    unfold SchemaNode.trait_code
    simp [h1, h2, h3, h4, h5]

/-- C1 amended witness: each unsupported keyword exercised on a concrete node
(together with other valid keys but no earlier-dispatched key). -/
theorem C1_composite_keywords_fail_witness :
    SchemaNode.trait_code 1 (mkRoot (.obj [("not", .obj []), ("type", .str "string")])) []
      = .error (.notSupported "not") ∧
    SchemaNode.trait_code 1 (mkRoot (.obj [("anyOf", .arr []), ("enum", .arr []),
        ("type", .str "string")])) [] = .error (.notSupported "anyOf") ∧
    SchemaNode.trait_code 1 (mkRoot (.obj [("allOf", .arr []), ("type", .str "string")])) []
      = .error (.notSupported "allOf") ∧
    SchemaNode.trait_code 1 (mkRoot (.obj [("oneOf", .arr []), ("type", .str "string")])) []
      = .error (.notSupported "oneOf") :=
  ⟨(C1_composite_keywords_fail (mkRoot (.obj [("not", .obj []), ("type", .str "string")]))
      0 []).1 rfl,
   (C1_composite_keywords_fail (mkRoot (.obj [("anyOf", .arr []), ("enum", .arr []),
      ("type", .str "string")])) 0 []).2.1 rfl rfl rfl,
   (C1_composite_keywords_fail (mkRoot (.obj [("allOf", .arr []), ("type", .str "string")]))
      0 []).2.2.1 rfl rfl rfl rfl,
   (C1_composite_keywords_fail (mkRoot (.obj [("oneOf", .arr []), ("type", .str "string")]))
      0 []).2.2.2 rfl rfl rfl rfl rfl⟩

/-- C4: for a ref string not already cached, resolution fails with the
invalid-reference condition naming the ref iff the leading `/`-segment is
not `"#"`; for a well-rooted ref, resolution walks the root context by
splitting on `/` and indexing successively after the leading `"#"` — a
missing key at any step fails with the unresolved-reference condition naming
the full ref string, and a successful walk wraps the target with the last
segment as its name (storing it when caching). -/
theorem C4_reference_resolution (self : SchemaNode) (ref : String) (cache : Bool)
    (store : Cache) (hmiss : lookupCache store ref = none) :
    (self.get_reference ref cache store = .error (.invalidReference ref) ↔
      ¬((splitSlash ref).head? = some "#")) ∧
    ((splitSlash ref).head? = some "#" →
      (refWalk self.context (splitSlash ref).tail = .missingKey →
        self.get_reference ref cache store = .error (.unresolvedReference ref)) ∧
      (∀ target, refWalk self.context (splitSlash ref).tail = .ok target →
        self.get_reference ref cache store =
          .ok (self.make_child target (some ((splitSlash ref).getLast?.getD "")),
            if cache then
              (ref, self.make_child target (some ((splitSlash ref).getLast?.getD ""))) :: store
            else store))) := by
  unfold SchemaNode.get_reference
  rw [hmiss]
  cases cache <;> by_cases hh : (splitSlash ref).head? = some "#" <;>
    simp only [hh] <;>
    cases hw : refWalk self.context (splitSlash ref).tail <;>
    simp [hh, hw]

/-- C4 witness: a mis-rooted ref fails with the invalid-reference condition,
a missing definition fails with the unresolved-reference condition, and a
well-rooted present ref resolves to the wrapped named target. -/
theorem C4_reference_resolution_witness :
    (mkRoot barDoc).get_reference "definitions/Bar" true [] =
      .error (.invalidReference "definitions/Bar") ∧
    (mkRoot barDoc).get_reference "#/definitions/Missing" true [] =
      .error (.unresolvedReference "#/definitions/Missing") ∧
    (mkRoot barDoc).get_reference "#/definitions/Bar" true [] =
      .ok (barNode, [("#/definitions/Bar", barNode)]) := by
  refine ⟨?_, ?_, ?_⟩
  · exact (C4_reference_resolution (mkRoot barDoc) "definitions/Bar" true [] rfl).1.mpr
      (by decide)
  · exact ((C4_reference_resolution (mkRoot barDoc) "#/definitions/Missing" true []
      rfl).2 (by decide)).1 rfl
  · exact ((C4_reference_resolution (mkRoot barDoc) "#/definitions/Bar" true []
      rfl).2 (by decide)).2 (.obj [("type", .str "integer")]) rfl

/-- C5: resolving a ref twice against the same document with caching enabled
returns the stored node: after a successful first call the store maps the
ref to the returned node, and the second call returns that very node with
the store unchanged (the cache-hit branch — no re-walk); with caching
disabled the returned node is independent of the cache state, so two
uncached calls return structurally-equal nodes. -/
theorem C5_repeat_resolution (self : SchemaNode) (ref : String) (store : Cache)
    (node1 : SchemaNode) (store1 : Cache)
    (h : self.get_reference ref true store = .ok (node1, store1)) :
    lookupCache store1 ref = some node1 ∧
    self.get_reference ref true store1 = .ok (node1, store1) ∧
    (∀ st st2 : Cache, (self.get_reference ref false st).map Prod.fst =
        (self.get_reference ref false st2).map Prod.fst) := by
  have huncached : ∀ st st2 : Cache, (self.get_reference ref false st).map Prod.fst =
      (self.get_reference ref false st2).map Prod.fst := by
    intro st st2
    unfold SchemaNode.get_reference
    by_cases hh : (splitSlash ref).head? = some "#" <;>
      cases hw : refWalk self.context (splitSlash ref).tail <;>
      simp [hh, hw, Except.map]
  have hstep : lookupCache store1 ref = some node1 := by
    unfold SchemaNode.get_reference at h
    cases hcache : lookupCache store ref with
    | some n =>
      rw [hcache] at h
      have h' : (Except.ok (n, store) : Except Err (SchemaNode × Cache)) =
        .ok (node1, store1) := h
      injection h' with hx
      injection hx with h1 h2
      subst h1; subst h2
      exact hcache
    | none =>
      rw [hcache] at h
      by_cases hh : (splitSlash ref).head? = some "#" <;>
        cases hw : refWalk self.context (splitSlash ref).tail <;>
        simp [hh, hw] at h
      obtain ⟨h1, h2⟩ := h
      subst h1; subst h2
      simp [lookupCache]
  refine ⟨hstep, ?_, huncached⟩
  conv_lhs => unfold SchemaNode.get_reference
  rw [hstep]

/-- C5 witness: after resolving `#/definitions/Bar` once against `barDoc`
with an empty cache, the store holds the resolved node and the repeated
cached call returns it unchanged. -/
theorem C5_repeat_resolution_witness :
    lookupCache [("#/definitions/Bar", barNode)] "#/definitions/Bar" = some barNode ∧
    (mkRoot barDoc).get_reference "#/definitions/Bar" true [("#/definitions/Bar", barNode)] =
      .ok (barNode, [("#/definitions/Bar", barNode)]) :=
  ⟨(C5_repeat_resolution (mkRoot barDoc) "#/definitions/Bar" [] barNode
      [("#/definitions/Bar", barNode)] rfl).1,
   (C5_repeat_resolution (mkRoot barDoc) "#/definitions/Bar" [] barNode
      [("#/definitions/Bar", barNode)] rfl).2.1⟩

/-- Helper: `get_reference` never fails with the unrecognized-type
condition (its errors are invalid-reference, unresolved-reference, or a raw
`TypeError`). -/
theorem get_reference_no_unrecognized (self : SchemaNode) (r : String) (c : Bool)
    (store : Cache) (v : JSON) :
    self.get_reference r c store ≠ .error (.unrecognizedType v) := by
  unfold SchemaNode.get_reference
  cases c <;> cases hl : lookupCache store r <;>
    by_cases hh : (splitSlash r).head? = some "#" <;>
    cases hw : refWalk self.context (splitSlash r).tail <;>
    simp [hh, hw]

/-- Helper: `classname` never fails with the unrecognized-type condition. -/
theorem classname_no_unrecognized (self : SchemaNode) (v : JSON) :
    self.classname ≠ .error (.unrecognizedType v) := by
  unfold SchemaNode.classname
  split
  · simp
  · split
    · simp
    · split <;> simp

/-- Helper: an unrecognized-type payload produced anywhere inside the
list-of-types loop satisfies `isScalarUnrecognized`, provided the dispatch
function it recurses through does. -/
theorem traitCodeListWith_payload
    (f : SchemaNode → Cache → Except Err (TraitCode × Cache))
    (inv : ∀ node store v, f node store = .error (.unrecognizedType v) →
      isScalarUnrecognized v = true)
    (self : SchemaNode) (typs : List JSON) (store : Cache) (v : JSON)
    (h : traitCodeListWith f self typs store = .error (.unrecognizedType v)) :
    isScalarUnrecognized v = true := by
  induction typs generalizing store with
  | nil => simp [traitCodeListWith] at h
  | cons typ rest ih =>
    unfold traitCodeListWith at h
    cases hf : f (self.make_child (.obj [("type", typ)]) none) store with
    | error e =>
      rw [hf] at h
      injection h with he
      rw [he] at hf
      exact inv _ _ _ hf
    | ok p =>
      obtain ⟨tc, st1⟩ := p
      rw [hf] at h
      simp only [] at h
      cases hr : traitCodeListWith f self rest st1 with
      | error e =>
        rw [hr] at h
        injection h with he
        rw [he] at hr
        exact ih st1 hr
      | ok q =>
        obtain ⟨tcs, st2⟩ := q
        rw [hr] at h
        simp at h

/-- Helper: any unrecognized-type payload `trait_code` ever reports is a
scalar outside the primitive set and distinct from `"array"`/`"object"` —
the final `else` branch is the only site raising it. -/
theorem trait_code_unrecognized_payload :
    ∀ (fuel : Nat) (node : SchemaNode) (store : Cache) (v : JSON),
      SchemaNode.trait_code fuel node store = .error (.unrecognizedType v) →
      isScalarUnrecognized v = true := by
  intro fuel
  induction fuel with
  | zero =>
    intro node store v h
    simp [SchemaNode.trait_code] at h
  | succ fuel ih =>
    intro node store v h
    unfold SchemaNode.trait_code at h
    cases h1 : node.schema.hasKey "not" with
    | true => simp [h1] at h
    | false =>
    rw [h1] at h
    cases h2 : node.schema.hasKey "$ref" with
    | true =>
      rw [h2] at h
      simp only [Bool.false_eq_true, if_false, if_true] at h
      cases hl : node.schema.lookup "$ref" with
      | none => rw [hl] at h; simp at h
      | some jv =>
        rw [hl] at h
        cases jv with
        | str r =>
          simp only [] at h
          cases hres : node.get_reference r true store with
          | error e =>
            rw [hres] at h
            injection h with he
            rw [he] at hres
            exact absurd hres (get_reference_no_unrecognized _ _ _ _ _)
          | ok p =>
            obtain ⟨refN, store1⟩ := p
            rw [hres] at h
            simp only [] at h
            cases hobj : refN.is_object with
            | true =>
              rw [hobj] at h
              simp only [if_true] at h
              cases hcn : refN.classname with
              | ok cn => rw [hcn] at h; simp at h
              | error e =>
                rw [hcn] at h
                injection h with he
                rw [he] at hcn
                exact absurd hcn (classname_no_unrecognized _ _)
            | false =>
              rw [hobj] at h
              simp only [Bool.false_eq_true, if_false] at h
              exact ih _ _ _ h
        | null => simp at h
        | bool b => simp at h
        | num n => simp at h
        | arr xs => simp at h
        | obj fs => simp at h
    | false =>
    rw [h2] at h
    cases h3 : node.schema.hasKey "anyOf" with
    | true => simp [h3] at h
    | false =>
    rw [h3] at h
    cases h4 : node.schema.hasKey "allOf" with
    | true => simp [h4] at h
    | false =>
    rw [h4] at h
    cases h5 : node.schema.hasKey "oneOf" with
    | true => simp [h5] at h
    | false =>
    rw [h5] at h
    cases h6 : node.schema.hasKey "enum" with
    | true => simp [h6] at h
    | false =>
    rw [h6] at h
    simp only [Bool.false_eq_true, if_false] at h
    cases ht : node.type with
    | str t =>
      rw [ht] at h
      simp only [] at h
      by_cases hc : t ∈ simple_types
      · simp [hc] at h
      · by_cases ha : t = "array"
        · subst ha
          simp [hc] at h
          cases hi : node.schema.lookup "items" with
          | none => rw [hi] at h; simp at h
          | some items =>
            rw [hi] at h
            cases items with
            | arr elems => simp at h
            | null =>
              simp only [] at h
              cases hrec : SchemaNode.trait_code fuel (node.make_child .null none) store with
              | error e =>
                rw [hrec] at h
                injection h with he
                rw [he] at hrec
                exact ih _ _ _ hrec
              | ok p => obtain ⟨tc, st⟩ := p; rw [hrec] at h; simp at h
            | bool b =>
              simp only [] at h
              cases hrec : SchemaNode.trait_code fuel (node.make_child (.bool b) none) store with
              | error e =>
                rw [hrec] at h
                injection h with he
                rw [he] at hrec
                exact ih _ _ _ hrec
              | ok p => obtain ⟨tc, st⟩ := p; rw [hrec] at h; simp at h
            | num n =>
              simp only [] at h
              cases hrec : SchemaNode.trait_code fuel (node.make_child (.num n) none) store with
              | error e =>
                rw [hrec] at h
                injection h with he
                rw [he] at hrec
                exact ih _ _ _ hrec
              | ok p => obtain ⟨tc, st⟩ := p; rw [hrec] at h; simp at h
            | str s =>
              simp only [] at h
              cases hrec : SchemaNode.trait_code fuel (node.make_child (.str s) none) store with
              | error e =>
                rw [hrec] at h
                injection h with he
                rw [he] at hrec
                exact ih _ _ _ hrec
              | ok p => obtain ⟨tc, st⟩ := p; rw [hrec] at h; simp at h
            | obj fs =>
              simp only [] at h
              cases hrec : SchemaNode.trait_code fuel (node.make_child (.obj fs) none) store with
              | error e =>
                rw [hrec] at h
                injection h with he
                rw [he] at hrec
                exact ih _ _ _ hrec
              | ok p => obtain ⟨tc, st⟩ := p; rw [hrec] at h; simp at h
        · by_cases ho : t = "object"
          · subst ho
            simp [hc, ha] at h
            cases hcn : node.classname with
            | ok cn => rw [hcn] at h; simp at h
            | error e =>
              rw [hcn] at h
              injection h with he
              rw [he] at hcn
              exact absurd hcn (classname_no_unrecognized _ _)
          · simp [hc, ha, ho] at h
            rw [← h]
            simp [isScalarUnrecognized, hc, ha, ho]
    | arr typs =>
      rw [ht] at h
      simp only [] at h
      cases hlst : traitCodeListWith (SchemaNode.trait_code fuel) node typs store with
      | error e =>
        rw [hlst] at h
        injection h with he
        rw [he] at hlst
        exact traitCodeListWith_payload _ (fun n s w hw => ih n s w hw) _ _ _ _ hlst
      | ok p => obtain ⟨tcs, st⟩ := p; rw [hlst] at h; simp at h
    | null =>
      rw [ht] at h
      simp only [] at h
      injection h with he
      injection he with hv
      rw [← hv]
      rfl
    | bool b =>
      rw [ht] at h
      simp only [] at h
      injection h with he
      injection he with hv
      rw [← hv]
      rfl
    | num n =>
      rw [ht] at h
      simp only [] at h
      injection h with he
      injection he with hv
      rw [← hv]
      rfl
    | obj fs =>
      rw [ht] at h
      simp only [] at h
      injection h with he
      injection he with hv
      rw [← hv]
      rfl

/-- C3 counterexample: both nodes carry none of the six dispatch keys and
have a list-valued `type` that is not a list of primitive names, so the
claim as stated demands an unrecognized-type failure; instead `["array"]`
fails with a raw `KeyError("items")` (the element re-enters full dispatch
and reaches the array branch) and `[["string"]]` succeeds with a nested
union. -/
theorem C3_counterexample :
    SchemaNode.trait_code 5 listArrayNode [] = .error (.keyError "items") ∧
    SchemaNode.trait_code 5 (mkRoot (.obj [("type", .arr [.arr [.str "string"]])])) [] =
      .ok (.unionOf [.unionOf [.primitive "jst.JSONString"]], []) :=
  ⟨rfl, rfl⟩

/-- C3 amended: for a node with none of the keys `not`, `$ref`, `anyOf`,
`allOf`, `oneOf`, `enum`, computing the type representation fails with
UnrecognizedType identifying the node's own `type` value iff that value is
neither a primitive name, nor `"array"`, nor `"object"`, nor a list; a
list-valued `type` is dispatched element-wise as fresh single-type nodes
(so a list containing a non-primitive name need not fail with
UnrecognizedType), and every UnrecognizedType payload the recursion can
produce is itself such a scalar, never the node's list. -/
theorem C3_unrecognized_scalar_iff (node : SchemaNode) (fuel : Nat) (store : Cache)
    (h1 : node.schema.hasKey "not" = false) (h2 : node.schema.hasKey "$ref" = false)
    (h3 : node.schema.hasKey "anyOf" = false) (h4 : node.schema.hasKey "allOf" = false)
    (h5 : node.schema.hasKey "oneOf" = false) (h6 : node.schema.hasKey "enum" = false) :
    SchemaNode.trait_code (fuel + 1) node store = .error (.unrecognizedType node.type) ↔
      isScalarUnrecognized node.type = true := by
  constructor
  · intro h
    exact trait_code_unrecognized_payload (fuel + 1) node store node.type h
  · intro hscalar
    unfold SchemaNode.trait_code
    rw [h1, h2, h3, h4, h5, h6]
    simp only [Bool.false_eq_true, if_false]
    cases ht : node.type with
    | str t =>
      rw [ht] at hscalar
      simp only [isScalarUnrecognized, Bool.and_eq_true, Bool.not_eq_true'] at hscalar
      obtain ⟨⟨hc, ha⟩, ho⟩ := hscalar
      rw [decide_eq_false_iff_not] at ha ho
      have hmem : ¬(t ∈ simple_types) := by simpa using hc
      simp [hmem, ha, ho]
    | arr typs => rw [ht] at hscalar; simp [isScalarUnrecognized] at hscalar
    | null => simp
    | bool b => simp
    | num n => simp
    | obj fs => simp

/-- C3 amended witness: a number-valued `type` is rejected with
UnrecognizedType naming it. -/
theorem C3_unrecognized_scalar_iff_witness :
    SchemaNode.trait_code 1 numTypeNode [] = .error (.unrecognizedType (.num 3)) :=
  (C3_unrecognized_scalar_iff numTypeNode 0 [] rfl rfl rfl rfl rfl rfl).mpr rfl

/-- Helper: a cached resolution returns the same node as an uncached one
whenever the cache is coherent, and it preserves coherence. -/
theorem get_reference_coherent_step (self : SchemaNode) (r : String) (store : Cache)
    (hco : cacheCoherent self store) :
    (self.get_reference r true store).map Prod.fst =
      (self.get_reference r false []).map Prod.fst ∧
    (∀ n st1, self.get_reference r true store = .ok (n, st1) → cacheCoherent self st1) := by
  cases hcache : lookupCache store r with
  | some n =>
    have hun := hco r n hcache
    constructor
    · conv_lhs => unfold SchemaNode.get_reference
      rw [hcache, hun]
      rfl
    · intro n1 st1 h
      unfold SchemaNode.get_reference at h
      rw [hcache] at h
      have h' : (Except.ok (n, store) : Except Err (SchemaNode × Cache)) = .ok (n1, st1) := h
      injection h' with hx
      injection hx with hx1 hx2
      subst hx1; subst hx2
      exact hco
  | none =>
    constructor
    · unfold SchemaNode.get_reference
      rw [hcache]
      by_cases hh : (splitSlash r).head? = some "#" <;>
        cases hw : refWalk self.context (splitSlash r).tail <;>
        simp [hh, hw, lookupCache, Except.map]
    · intro n1 st1 h
      unfold SchemaNode.get_reference at h
      rw [hcache] at h
      by_cases hh : (splitSlash r).head? = some "#" <;>
        cases hw : refWalk self.context (splitSlash r).tail <;>
        simp [hh, hw] at h
      obtain ⟨hn, hst⟩ := h
      subst hn; subst hst
      intro q m hq
      by_cases hqr : q = r
      · subst hqr
        simp [lookupCache] at hq
        subst hq
        unfold SchemaNode.get_reference
        simp [lookupCache, hh, hw]
      · have hrq : ¬(r = q) := fun hs => hqr hs.symm
        simp [lookupCache, hrq] at hq
        exact hco q m hq

/-- Helper: under a coherent cache the imports loop computes exactly the
per-property classification-based import list of the spec. -/
theorem importsLoop_oracle (self : SchemaNode) (props : List (String × SchemaNode))
    (store : Cache) (hco : cacheCoherent self store) :
    (importsLoop self props store).map Prod.fst = importsFromClassification self props := by
  induction props generalizing store with
  | nil => rfl
  | cons p rest ih =>
    obtain ⟨pname, obj⟩ := p
    cases href : obj.is_reference with
    | false =>
      unfold importsLoop importsFromClassification importOfProp
      rw [href]
      simp only [Bool.false_eq_true, if_false]
      rw [ih store hco]
      cases hrec : importsFromClassification self rest <;> simp
    | true =>
      unfold importsLoop importsFromClassification importOfProp
      rw [href]
      simp only [if_true]
      cases hl : obj.schema.lookup "$ref" with
      | none => simp [Except.map]
      | some jv =>
        cases jv with
        | null => simp [Except.map]
        | bool b => simp [Except.map]
        | num n => simp [Except.map]
        | arr xs => simp [Except.map]
        | obj fs => simp [Except.map]
        | str r =>
          have hg := get_reference_coherent_step self r store hco
          cases hres : self.get_reference r true store with
          | error e =>
            have hu : (self.get_reference r false []).map Prod.fst = .error e := by
              rw [← hg.1, hres]; rfl
            cases hu2 : self.get_reference r false [] with
            | error e2 =>
              rw [hu2] at hu
              have he : e2 = e := by simpa [Except.map] using hu
              subst he
              simp [hres, hu2, Except.map]
            | ok q => rw [hu2] at hu; simp [Except.map] at hu
          | ok p1 =>
            obtain ⟨refN, store1⟩ := p1
            have hu : (self.get_reference r false []).map Prod.fst = .ok refN := by
              rw [← hg.1, hres]; rfl
            cases hu2 : self.get_reference r false [] with
            | error e2 => rw [hu2] at hu; simp [Except.map] at hu
            | ok q =>
              obtain ⟨refN2, stx⟩ := q
              rw [hu2] at hu
              have hq : refN2 = refN := by simpa [Except.map] using hu
              subst hq
              have hco1 : cacheCoherent self store1 := hg.2 refN2 store1 hres
              cases hobj : refN2.is_object with
              | false =>
                simp only [hres, hu2, hobj, Bool.false_eq_true, if_false]
                rw [ih store1 hco1]
                cases hrec : importsFromClassification self rest <;> simp
              | true =>
                cases hcn : refN2.import_statement with
                | error e =>
                  simp [hres, hu2, hobj, hcn, Except.map]
                | ok stmt =>
                  simp only [hres, hu2, hobj, hcn, if_true]
                  rw [← ih store1 hco1]
                  cases hrec : importsLoop self rest store1 with
                  | error e => simp [hrec, Except.map]
                  | ok q2 =>
                    obtain ⟨tail, st2⟩ := q2
                    simp [hrec, Except.map]

/-- C2 counterexample: an object node with no properties gets exactly the
fixed `basic_imports` prelude, which has three entries (an external
`traitlets` import plus the two support imports) — not "exactly the two
fixed support imports" as the claim states. -/
theorem C2_counterexample :
    SchemaNode.imports (mkRoot (.obj [])) [] = .ok (basic_imports, []) ∧
    basic_imports.length = 3 :=
  ⟨rfl, rfl⟩

/-- C2 amended: for every object node, the import list of its artifact
consists of the three fixed basic imports (the external traitlets import
plus the two support imports), followed by one import of the target
definition's artifact for every property that is reference-classified and
whose immediately resolved target is object-classified, in property order —
computed from each property's own `$ref`/object classification (the
`importsOracle` reading of the spec), not from the emitted
type-representation tree. -/
theorem C2_imports_oracle (node : SchemaNode) (store : Cache)
    (hco : cacheCoherent node store) :
    (node.imports store).map Prod.fst = importsOracle node := by
  unfold SchemaNode.imports importsOracle
  cases hp : node.wrapped_properties with
  | error e => simp [Except.map]
  | ok props =>
    simp only []
    have hl := importsLoop_oracle node props store hco
    cases hloop : importsLoop node props store with
    | error e =>
      rw [hloop] at hl
      rw [← hl]
      simp [hloop, Except.map]
    | ok q =>
      obtain ⟨lst, st1⟩ := q
      rw [hloop] at hl
      rw [← hl]
      simp [hloop, Except.map]

/-- C2 amended witness: the document whose root has one property referencing
the object definition `A` gets the three basic imports followed by one
artifact-import line contributed by that reference property. -/
theorem C2_imports_oracle_witness :
    (SchemaNode.imports (mkRoot refPropDoc) []).map Prod.fst =
      importsOracle (mkRoot refPropDoc) ∧
    importsOracle (mkRoot refPropDoc) =
      .ok (basic_imports ++ ["from .a import A"]) :=
  ⟨C2_imports_oracle (mkRoot refPropDoc) []
      (by intro r n h; simp [lookupCache] at h),
   rfl⟩

end Schemapi
